import Mathlib

/-!
Shallow embedding of the query-orchestration pipeline of
`backend_to_docker/main.py`: the question classifier, the retrieval
router of `ask_question`, the indicator significance engine
(`get_statistically_important_indicators`) and the prompt compositor
(`build_specialized_prompt`).

Modelling conventions:
* Python dicts are insertion-ordered association lists
  (`List (String × β)`), with dict assignment keeping the position of an
  existing key and appending a new one;
* SQL `NULL` is `Option`, numeric amounts are `ℚ`;
* the exception world (`try`/`except`) is `Except Unit`;
* the external store is a structure of ranked result pools (the SQL
  `ORDER BY distance LIMIT n` is `List.take n` of the ranked pool) plus
  failure flags for the connection errors a query can raise;
* Python float rendering (`f"{v:.3f}"` / `f"{v:.2e}"`) is an abstract
  parameter `fmt : ℚ → String`, since IEEE-754 digit rendering is outside
  the scope of the embedded logic.
-/

namespace Epd

/-- Python dict assignment `d[k] = v`: replaces the value in place if the key
exists, otherwise appends the pair at the end (insertion order). -/
def dictInsert {β : Type} (k : String) (v : β) : List (String × β) → List (String × β)
  | [] => [(k, v)]
  | (k', v') :: rest => if k' = k then (k', v) :: rest else (k', v') :: dictInsert k v rest

/-- Python `if k not in d: d[k] = dflt` followed by an in-place update of
`d[k]` with `f`. -/
def dictModify {β : Type} (k : String) (dflt : β) (f : β → β) :
    List (String × β) → List (String × β)
  | [] => [(k, f dflt)]
  | (k', v) :: rest => if k' = k then (k', f v) :: rest else (k', v) :: dictModify k dflt f rest

/-! ### Question classifier (`classify_question`) -/

/-- The 7 labels accepted verbatim by the classifier (`valid_labels` in
`classify_question`). -/
def valid_labels : List String :=
  ["theory_only", "comparison_question", "hybrid_theory_comparison", "new_product_query",
   "indicator_explanation", "recommendation_query", "product_followup"]

/-- The 8 labels of the data model: the 7 categories plus "unknown". -/
def allCategoryLabels : List String := valid_labels ++ ["unknown"]

/-- Python `str.lower()`. -/
def pyLower (s : String) : String := ⟨s.data.map Char.toLower⟩

/-- Python `str.strip()` on the character list: drop whitespace from both
ends. -/
def stripCore (l : List Char) : List Char :=
  ((l.dropWhile Char.isWhitespace).reverse.dropWhile Char.isWhitespace).reverse

/-- Python `str.strip()`. -/
def pyStrip (s : String) : String := ⟨stripCore s.data⟩

/-- `classify_question`, after the generation capability call: the capability
either fails (`Except.error`, the Python `except` path) or returns a raw
response, which is stripped and lowercased and accepted only on exact match
with one of the 7 known labels; every other outcome yields "unknown". -/
def classify_question (raw_response : Except Unit String) : String :=
  match raw_response with
  | .error _ => "unknown"
  | .ok r =>
    let label := pyLower (pyStrip r)
    if label ∈ valid_labels then label else "unknown"

/-! ### External store and chunk retrieval helpers -/

/-- The external store: ranked similarity-query pools and a ranked keyword
product search, plus failure flags.  A set `*Fails` flag means the
corresponding query raises a connection/query error. -/
structure Store where
  theoryRanked : List String
  epdAllRanked : List String
  epdForIds : List String → List String
  productMatches : String → List String
  theoryFails : Bool
  epdFails : Bool
  productFails : Bool

/-- The raw store query of `get_theory_chunks` before exception handling:
`SELECT chunk ... WHERE source = 'theory' ORDER BY distance LIMIT n`. -/
def theoryQueryExc (s : Store) (limit : Nat) : Except Unit (List String) :=
  if s.theoryFails then .error () else .ok (s.theoryRanked.take limit)

/-- `get_theory_chunks`: runs the store query and catches any failure,
logging it and returning an empty chunk list (`except ...: return []`). -/
def get_theory_chunks (s : Store) (limit : Nat) : List String :=
  match theoryQueryExc s limit with
  | .ok cs => cs
  | .error _ => []

/-- The raw store query of `get_epd_chunks`: filtered by product ids when a
non-empty id list is given (`if document_ids:` — an empty list is falsy and
queries unfiltered), otherwise the unfiltered EPD pool. -/
def epdQueryExc (s : Store) (document_ids : Option (List String)) (limit : Nat) :
    Except Unit (List String) :=
  if s.epdFails then .error ()
  else
    let ids := document_ids.getD []
    if ids.isEmpty then .ok (s.epdAllRanked.take limit)
    else .ok ((s.epdForIds ids).take limit)

/-- `get_epd_chunks`: runs the store query and catches any failure,
returning an empty chunk list. -/
def get_epd_chunks (s : Store) (document_ids : Option (List String)) (limit : Nat) :
    List String :=
  match epdQueryExc s document_ids limit with
  | .ok cs => cs
  | .error _ => []

/-- `search_epd_by_term`: ILIKE search over product names/descriptions
(`LIMIT limit`), then EPD chunks for the matched ids; an empty match list
returns no chunks, and any failure is caught and yields `[]`. -/
def search_epd_by_term (s : Store) (search_term : String) (limit : Nat) : List String :=
  if s.productFails then []
  else
    let product_ids := (s.productMatches search_term).take limit
    if product_ids.isEmpty then [] else get_epd_chunks s (some product_ids) limit

/-! ### Retrieval router (`ask_question`, step 3) -/

/-- `common_building_terms` of the `new_product_query` branch. -/
def common_building_terms : List String :=
  ["insulation", "brick", "concrete", "wood", "timber", "glass",
   "steel", "aluminum", "roof", "tile", "panel", "facade", "window"]

/-- Python `str.split()` (no argument): split on runs of whitespace,
dropping empty pieces. -/
def splitWsAux : List Char → List Char → List String
  | [], acc => if acc.isEmpty then [] else [⟨acc.reverse⟩]
  | c :: cs, acc =>
    if c.isWhitespace then
      (if acc.isEmpty then splitWsAux cs [] else ⟨acc.reverse⟩ :: splitWsAux cs [])
    else splitWsAux cs (c :: acc)

/-- Python `s.split()`. -/
def pySplit (s : String) : List String := splitWsAux s.data []

/-- `search_terms` of the `new_product_query` branch:
`[word for word in question.lower().split() if word in common_building_terms]`. -/
def extractSearchTerms (question : String) : List String :=
  (pySplit (pyLower question)).filter (fun w => decide (w ∈ common_building_terms))

/-- The chunk list produced by the category-specific retrieval plan of
`ask_question` (step 3), before the empty-result fallback.  The final
branch is the explicit `else` arm for unknown categories. -/
def categoryPlanChunks (s : Store) (category : String) (document_ids : List String)
    (question : String) : List String :=
  if category = "theory_only" then get_theory_chunks s 5
  else if category = "comparison_question" then
    (if document_ids.isEmpty then [] else get_epd_chunks s (some document_ids) 5)
  else if category = "hybrid_theory_comparison" then
    get_theory_chunks s 3 ++
      (if document_ids.isEmpty then [] else get_epd_chunks s (some document_ids) 3)
  else if category = "new_product_query" then
    get_theory_chunks s 3 ++
      ((extractSearchTerms question).take 2).flatMap (fun t => search_epd_by_term s t 2)
  else if category = "indicator_explanation" then get_theory_chunks s 5
  else if category = "recommendation_query" then
    get_theory_chunks s 2 ++ get_epd_chunks s none 5
  else if category = "product_followup" then
    let c := if document_ids.isEmpty then [] else get_epd_chunks s (some document_ids) 5
    (if c.length < 3 then c ++ get_theory_chunks s 2 else c)
  else
    get_theory_chunks s 3 ++
      (if document_ids.isEmpty then [] else get_epd_chunks s (some document_ids) 3)

/-- The relaxed category-agnostic fallback plan of `ask_question`
(`if not chunks:` block): theory top 2 plus unfiltered product-evidence
top 3. -/
def fallbackChunks (s : Store) : List String :=
  get_theory_chunks s 2 ++ get_epd_chunks s none 3

/-- The retrieval step with its one-shot fallback; the second component
counts how many times the relaxed fallback plan was executed. -/
def retrieveWithFallback (s : Store) (category : String) (document_ids : List String)
    (question : String) : List String × Nat :=
  let chunks := categoryPlanChunks s category document_ids question
  if chunks.isEmpty then (fallbackChunks s, 1) else (chunks, 0)

/-- Outcome of the retrieval phase of `ask_question`: either an immediate
normal answer (a 200 response, no error status) or the retrieved context
handed to the prompt compositor. -/
inductive RetrievalOutcome where
  | answer (text : String)
  | contextReady (chunks : List String)
deriving DecidableEq

/-- The exact no-information message returned by `ask_question`. -/
def noInfoMsg : String :=
  "I couldn\x27t find relevant information to answer your question. Try a different question or select different products."

/-- The retrieval phase of `ask_question`: run the category plan with its
fallback; if even the fallback yields no chunks, return the normal
no-information answer. -/
def retrievalPhase (s : Store) (category : String) (document_ids : List String)
    (question : String) : RetrievalOutcome :=
  let chunks := (retrieveWithFallback s category document_ids question).1
  if chunks.isEmpty then .answer noInfoMsg else .contextReady chunks

/-! ### Indicator significance engine (`get_statistically_important_indicators`) -/

/-- One row of the joined `lcia_results`/`lcia_moduleamounts` query; the
module and the amount may be SQL NULL. -/
structure LciaRow where
  process_id : String
  indicator_key : String
  unit : String
  module : Option String
  amount : Option ℚ
deriving DecidableEq

/-- One row of `indicator_statistics`; every aggregate may be SQL NULL. -/
structure StatRow where
  mean : Option ℚ
  std_dev : Option ℚ
  min : Option ℚ
  max : Option ℚ
deriving DecidableEq

/-- The statistics lookup: models the `indicator_statistics` SELECT keyed by
(indicator key, module, category levels 1-3); `none` is an empty result. -/
abbrev StatLookup := String → String → String → String → String → Option StatRow

/-- The indicator metadata lookup: models the `indicators` SELECT, returning
(name, short_description). -/
abbrev MetaLookup := String → Option (String × String)

/-- Entry of the intermediate `lcia_results[pid][key]` dict: the unit of the
first row seen for the key, and the module→amount dict. -/
structure IndAmounts where
  unit : String
  modules : List (String × ℚ)
deriving DecidableEq

/-- One element of the `indicator_significance` candidate list. -/
structure Cand where
  indicator_key : String
  module : String
  value : ℚ
  unit : String
  z_score : ℚ
  percentile : ℚ
  is_high : Bool
  is_low : Bool
deriving DecidableEq

/-- Processing of one joined row into the nested `lcia_results` dict: the
product entry and the indicator entry are created for every row, but the
module amount is stored only when the module is truthy (non-NULL and
non-empty) and the amount is not NULL.  Zero amounts are kept. -/
def addLciaRow (d : List (String × List (String × IndAmounts))) (r : LciaRow) :
    List (String × List (String × IndAmounts)) :=
  dictModify r.process_id []
    (fun inds =>
      dictModify r.indicator_key {unit := r.unit, modules := []}
        (fun e =>
          match r.module, r.amount with
          | some m, some a => if m.isEmpty then e else {e with modules := dictInsert m a e.modules}
          | _, _ => e)
        inds)
    d

/-- The nested `lcia_results` dict built from all joined rows. -/
def buildLcia (rows : List LciaRow) : List (String × List (String × IndAmounts)) :=
  rows.foldl addLciaRow []

/-- The `product_categories` dict: process id → 3-level category path. -/
def buildCategories (rows : List (String × String × String × String)) :
    List (String × (String × String × String)) :=
  rows.foldl (fun d r => dictInsert r.1 r.2 d) []

/-- Candidate evaluation for one (indicator, module, value) triple, exactly
as in the statistics loop of `get_statistically_important_indicators`:
an absent statistic or a NULL mean / NULL or zero std-dev skips the triple
(`Except.ok none`); otherwise z-score and percentile are computed.
`Except.error` models the uncaught Python `TypeError` raised when the range
branch evaluates `(value - min_val)` with a NULL `min` (which happens
whenever `min` is NULL, because an undefined range defaults `range_size`
to 1 > 0). -/
def evalCand (stats : StatLookup) (cat1 cat2 cat3 : String)
    (indicator_key module_code unit : String) (value : ℚ) : Except Unit (Option Cand) :=
  match stats indicator_key module_code cat1 cat2 cat3 with
  | none => .ok none
  | some st =>
    match st.mean, st.std_dev with
    | some mean, some std_dev =>
      if std_dev = 0 then .ok none
      else
        let z_score := if std_dev > 0 then |(value - mean) / std_dev| else 0
        let range_size : ℚ :=
          match st.min, st.max with
          | some mn, some mx => mx - mn
          | _, _ => 1
        if range_size > 0 then
          match st.min with
          | some mn =>
            .ok (some { indicator_key := indicator_key, module := module_code, value := value,
                        unit := unit, z_score := z_score,
                        percentile := (value - mn) / range_size,
                        is_high := value > mean, is_low := value < mean })
          | none => .error ()
        else
          .ok (some { indicator_key := indicator_key, module := module_code, value := value,
                      unit := unit, z_score := z_score, percentile := 0.5,
                      is_high := value > mean, is_low := value < mean })
    | _, _ => .ok none

/-- The (key, unit, module, value) triples of one product, in dict iteration
order. -/
def candTriples (inds : List (String × IndAmounts)) : List (String × String × String × ℚ) :=
  inds.flatMap (fun ke => ke.2.modules.map (fun mv => (ke.1, ke.2.unit, mv.1, mv.2)))

/-- The `indicator_significance` list of one product: candidate evaluation
over all triples, short-circuiting on the first raised error. -/
def candsFor (stats : StatLookup) (cat1 cat2 cat3 : String) :
    List (String × String × String × ℚ) → Except Unit (List Cand)
  | [] => .ok []
  | t :: ts =>
    match evalCand stats cat1 cat2 cat3 t.1 t.2.2.1 t.2.1 t.2.2.2 with
    | .error e => .error e
    | .ok none => candsFor stats cat1 cat2 cat3 ts
    | .ok (some c) =>
      match candsFor stats cat1 cat2 cat3 ts with
      | .error e => .error e
      | .ok cs => .ok (c :: cs)

/-- Insertion of a candidate into a list sorted descending by z-score,
after every element whose z-score is ≥ its own. -/
def insertByZDesc (x : Cand) : List Cand → List Cand
  | [] => [x]
  | y :: ys => if x.z_score ≤ y.z_score then y :: insertByZDesc x ys else x :: y :: ys

/-- Python `indicator_significance.sort(key=lambda x: x["z_score"],
reverse=True)`: a stable descending sort keyed only by z-score.  A stable
sort by a key is extensionally unique, so this left-to-right insertion sort
and CPython's Timsort agree. -/
def sortByZDesc (l : List Cand) : List Cand := l.foldl (fun acc x => insertByZDesc x acc) []

/-- The high/low balanced selection of at most `max_indicators` candidates:
sort descending by z-score, split into high/low partitions, take up to
⌊max_indicators/2⌋ of each, and backfill any remaining slots from the
not-yet-selected candidates of the sorted list. -/
def selectCandidates (max_indicators : Nat) (cands : List Cand) : List Cand :=
  let sorted := sortByZDesc cands
  let high_indicators := sorted.filter (fun c => c.is_high)
  let low_indicators := sorted.filter (fun c => c.is_low)
  let half_max := max_indicators / 2
  let selected_high := high_indicators.take half_max
  let selected_low := low_indicators.take half_max
  let remaining_slots : Int :=
    (max_indicators : Int) - selected_high.length - selected_low.length
  if remaining_slots > 0 then
    let selected_keys := (selected_high ++ selected_low).map (fun c => (c.indicator_key, c.module))
    let remaining := sorted.filter (fun c => !(selected_keys.contains (c.indicator_key, c.module)))
    selected_high ++ remaining.take remaining_slots.toNat ++ selected_low
  else
    selected_high ++ selected_low

/-- Per-module significance data attached to the output. -/
structure SigOut where
  z_score : ℚ
  percentile : ℚ
  is_high : Bool
  is_low : Bool
deriving DecidableEq

/-- One `product_indicators[pid][key]` output entry of the engine. -/
structure OutEntry where
  unit : String
  modules : List (String × ℚ)
  significance : List (String × SigOut)
  name : Option String
  description : Option String
deriving DecidableEq

/-- Adding one selected candidate to a product's output dict. -/
def addSelected (d : List (String × OutEntry)) (c : Cand) : List (String × OutEntry) :=
  dictModify c.indicator_key
    {unit := c.unit, modules := [], significance := [], name := none, description := none}
    (fun e =>
      {e with
        modules := dictInsert c.module c.value e.modules,
        significance := dictInsert c.module
          {z_score := c.z_score, percentile := c.percentile,
           is_high := c.is_high, is_low := c.is_low}
          e.significance})
    d

/-- The per-product output dict built from the selected candidates. -/
def outputForProduct (selected : List Cand) : List (String × OutEntry) :=
  selected.foldl addSelected []

/-- Engine output type: process id → indicator key → output entry. -/
abbrev EngineOut := List (String × List (String × OutEntry))

/-- The per-product loop of the engine: products without category info are
skipped; any candidate-evaluation error aborts the whole computation. -/
def computeProducts (cats : List (String × (String × String × String)))
    (stats : StatLookup) (max_indicators : Nat) :
    List (String × List (String × IndAmounts)) → Except Unit EngineOut
  | [] => .ok []
  | (pid, inds) :: rest =>
    match cats.lookup pid with
    | none => computeProducts cats stats max_indicators rest
    | some c =>
      match candsFor stats c.1 c.2.1 c.2.2 (candTriples inds) with
      | .error e => .error e
      | .ok cands =>
        match computeProducts cats stats max_indicators rest with
        | .error e => .error e
        | .ok out => .ok ((pid, outputForProduct (selectCandidates max_indicators cands)) :: out)

/-- Metadata attachment for one output entry: sets display name and short
description when the `indicators` table has the key. -/
def attachOne (metaf : MetaLookup) (k : String) (e : OutEntry) : OutEntry :=
  match metaf k with
  | some nd => {e with name := some nd.1, description := some nd.2}
  | none => e

/-- The metadata pass over the whole engine output. -/
def attachMetadata (metaf : MetaLookup) (out : EngineOut) : EngineOut :=
  out.map (fun pd => (pd.1, pd.2.map (fun ke => (ke.1, attachOne metaf ke.1 ke.2))))

/-- `get_statistically_important_indicators`: builds the category dict and
the nested LCIA dict, runs the per-product significance selection, and
attaches indicator metadata.  The surrounding `try`/`except` returns the
empty dict if any step raises (in particular the NULL-`min` TypeError of
`evalCand`).  The function takes no caller-selected indicator keys: its
only inputs are the product rows and `max_indicators`. -/
def get_statistically_important_indicators
    (categoryRows : List (String × String × String × String))
    (lciaRows : List LciaRow) (stats : StatLookup) (metaf : MetaLookup)
    (max_indicators : Nat) : EngineOut :=
  match computeProducts (buildCategories categoryRows) stats max_indicators (buildLcia lciaRows) with
  | .error _ => []
  | .ok out => attachMetadata metaf out

/-- Number of (indicator key, module) amount entries in one product's
output dict. -/
def entriesCount (d : List (String × OutEntry)) : Nat :=
  (d.map (fun ke => ke.2.modules.length)).sum

/-! ### Prompt compositor (`build_specialized_prompt`) -/

/-- Python string interpolation of a possibly-`None` value: `f"{x}"` renders
`None` as the string "None". -/
def pyShow : Option String → String
  | some s => s
  | none => "None"

/-- Python truthiness of an optional string: `None` and the empty string
are falsy. -/
def truthy : Option String → Bool
  | some s => !s.isEmpty
  | none => false

/-- Product descriptor as returned by `get_product_info` (after the
en/ai fallbacks); all DB fields are nullable. -/
structure ProductInfo where
  id : String
  name : Option String
  description : Option String
  short_description : Option String
  technical_description : Option String
  category_level_1 : Option String
  category_level_2 : Option String
  category_level_3 : Option String
deriving DecidableEq

/-- Indicator descriptor as returned by `get_indicator_info`. -/
structure IndicatorInfo where
  key : String
  name : Option String
  short_description : Option String
  long_description : Option String
deriving DecidableEq

/-- Compositor-side per-indicator data (`product_indicators[pid][key]`):
module amounts may be NULL (they come from `get_product_indicators` on some
paths), the unit may be absent, and the significance dict exists only on
entries produced by the significance engine. -/
structure PIndData where
  unit : Option String
  modules : List (String × Option ℚ)
  significance : Option (List (String × SigOut))
deriving DecidableEq

/-- The significance marker appended to one formatted module value:
"(high)"/"(low)" only when the direction flag is set and the z-score
exceeds 1.5. -/
def markerOf (sig : Option SigOut) : String :=
  match sig with
  | some sg =>
    if sg.is_high ∧ sg.z_score > 1.5 then " (high)"
    else if sg.is_low ∧ sg.z_score > 1.5 then " (low)"
    else ""
  | none => ""

/-- The `module_values` list of `build_specialized_prompt`: one
`"module: value"` string (plus marker) per non-NULL module amount, in dict
order.  `fmt` abstracts the Python float rendering. -/
def renderModuleValues (fmt : ℚ → String) (data : PIndData) : List String :=
  data.modules.filterMap
    (fun mv =>
      mv.2.map (fun v =>
        mv.1 ++ ": " ++ (fmt v ++ markerOf ((data.significance.getD []).lookup mv.1))))

/-- The display name used for an indicator line: "name (key)" when the key
is found in the supplied indicator info, the bare key otherwise. -/
def indicatorDisplayName (indicator_info : List IndicatorInfo) (indicator_key : String) : String :=
  match indicator_info.find? (fun i => i.key == indicator_key) with
  | some i => pyShow i.name ++ " (" ++ indicator_key ++ ")"
  | none => indicator_key

/-- One element of `product_indicator_values`: `none` when every module
value is NULL (the Python code appends only when `module_values` is
non-empty). -/
def renderIndicatorValueLine (fmt : ℚ → String) (indicator_info : List IndicatorInfo)
    (indicator_key : String) (data : PIndData) : Option String :=
  let module_values := renderModuleValues fmt data
  if module_values.isEmpty then none
  else some ("    " ++ indicatorDisplayName indicator_info indicator_key ++ " (" ++
             data.unit.getD "unknown unit" ++ "): " ++ ", ".intercalate module_values)

/-- The `product_detail` line list of one product. -/
def productDetailLines (fmt : ℚ → String) (indicator_info : List IndicatorInfo)
    (product_indicators : List (String × List (String × PIndData))) (p : ProductInfo) :
    List String :=
  let base := ["Product: " ++ pyShow p.name,
               "  Category: " ++ pyShow p.category_level_1 ++ "/" ++ pyShow p.category_level_2 ++
                 "/" ++ pyShow p.category_level_3,
               "  Description: " ++ pyShow p.description]
  let base := if truthy p.technical_description ∧ (pyShow p.technical_description).length < 250
              then base ++ ["  Technical Description: " ++ pyShow p.technical_description]
              else base
  let base := if truthy p.short_description ∧ p.short_description ≠ p.description ∧
                 (pyShow p.short_description).length < 200
              then base ++ ["  Summary: " ++ pyShow p.short_description]
              else base
  match product_indicators.lookup p.id with
  | none => base
  | some inds =>
    let value_lines := inds.filterMap (fun kd => renderIndicatorValueLine fmt indicator_info kd.1 kd.2)
    if value_lines.isEmpty then base else base ++ ["  Notable Indicator Values:"] ++ value_lines

/-- The 30-dash separator (`'-' * 30`). -/
def dashes30 : String := "------------------------------"

/-- The `product_context` block: empty when no product info was supplied. -/
def buildProductContext (fmt : ℚ → String) (product_info : List ProductInfo)
    (indicator_info : List IndicatorInfo)
    (product_indicators : List (String × List (String × PIndData))) : String :=
  if product_info.isEmpty then ""
  else
    let details := product_info.map
      (fun p => "\n".intercalate (productDetailLines fmt indicator_info product_indicators p))
    "Selected Products:\n" ++ dashes30 ++ "\n" ++ "\n\n".intercalate details ++ "\n" ++
      dashes30 ++ "\n\n"

/-- One `indicator_detail` block. -/
def indicatorDetail (i : IndicatorInfo) : String :=
  let lines := ["Indicator " ++ i.key ++ ": " ++ pyShow i.name,
                "  Description: " ++ pyShow i.short_description]
  let lines := if truthy i.long_description ∧ (pyShow i.long_description).length < 300
               then lines ++ ["  Detailed Information: " ++ pyShow i.long_description]
               else lines
  "\n".intercalate lines

/-- The `indicator_context` block: empty when no indicator info was
supplied. -/
def buildIndicatorContext (indicator_info : List IndicatorInfo) : String :=
  if indicator_info.isEmpty then ""
  else "Selected Indicators:\n" ++ dashes30 ++ "\n" ++
       "\n\n".intercalate (indicator_info.map indicatorDetail) ++ "\n" ++ dashes30 ++ "\n\n"

/-- The `no_invention_warning` literal. -/
def no_invention_warning : String :=
  "IMPORTANT: Only use numerical values explicitly provided above. Do not make up or infer any values not clearly stated in the context. If data is missing, acknowledge this limitation."

/-- The `module_integrity_warning` literal (module-integrity clause). -/
def module_integrity_warning : String :=
  "\nCRITICAL INTEGRITY INSTRUCTION: Environmental indicator values are SPECIFIC to their life cycle modules.\n\n- Each value is ONLY valid for its specific module (A1, A1-A3, B1, C4, etc.)\n- You must NEVER present a module-specific value (e.g., A1-A3: 25.4) as representing the entire indicator\n- When citing values, ALWAYS include the exact module code: \"GWP for module A1-A3: 25.4\", NOT just \"GWP: 25.4\"\n- Different modules (A1 vs B2 vs C4) represent different life cycle stages and CANNOT be combined or compared directly\n- NEVER sum up values across different modules to create a \"total\" unless explicitly provided\n"

/-- The `module_explanation` literal (life-cycle-module glossary A1…D). -/
def module_explanation : String :=
  "\nREFERENCE - Life Cycle Modules:\n- A1-A3: Product stage (raw material supply, transport, manufacturing)\n- A4-A5: Construction stage (transport to site, installation)\n- B1-B7: Use stage (use, maintenance, repair, replacement, etc.)\n- C1-C4: End-of-life stage (demolition, transport, waste processing, disposal)\n- D: Benefits beyond system boundary (reuse, recovery, recycling potential)\n"

/-- The three product-related categories that receive the module
warnings. -/
def product_related_categories : List String :=
  ["comparison_question", "hybrid_theory_comparison", "product_followup"]

/-- The `theory_only` template. -/
def theoryOnlyTemplate (question base_context : String) : String :=
  "You are an expert in building materials sustainability and life cycle assessment.\n\nQuestion: " ++
  question ++ "\n\nContext:\n" ++ base_context ++ "\n\n" ++ no_invention_warning ++
  "\n\nAnswer the question clearly, providing definitions and explaining key terminology. Focus on the theoretical concepts requested in the question.\n\nAnswer:"

/-- The `comparison_question` template. -/
def comparisonTemplate (question product_context indicator_context base_context
    product_warnings : String) : String :=
  "You are a sustainability analyst specializing in Environmental Product Declarations (EPDs).\n\nQuestion: " ++
  question ++ "\n\n" ++ product_context ++ "\n" ++ indicator_context ++ "\nContext:\n" ++
  base_context ++ "\n\n" ++ no_invention_warning ++ "\n\n" ++ product_warnings ++
  "\n\nCompare the products objectively based on their indicator values. ONLY compare values for the SAME indicator AND SAME module between products (e.g., GWP module A1-A3 from Product 1 vs. GWP module A1-A3 from Product 2).\n\nIf two products don\x27t have values for the same modules, clearly state: \"A direct comparison for [indicator] cannot be made because the products report values for different life cycle modules.\"\n\nAnswer:"

/-- The `hybrid_theory_comparison` template. -/
def hybridTemplate (question product_context indicator_context base_context
    product_warnings : String) : String :=
  "You are a sustainability educator specializing in building materials and life cycle assessment.\n\nQuestion: " ++
  question ++ "\n\n" ++ product_context ++ "\n" ++ indicator_context ++ "\nContext:\n" ++
  base_context ++ "\n\n" ++ no_invention_warning ++ "\n\n" ++ product_warnings ++
  "\n\nFirst explain the relevant sustainability concepts, then analyze the differences between the products\x27 indicator values. ONLY compare values for the SAME indicator AND SAME module between products.\n\nHelp the user understand both what the differences are and why they matter from a sustainability perspective.\n\nAnswer:"

/-- The `new_product_query` template. -/
def newProductTemplate (question base_context : String) : String :=
  "You are a building materials sustainability expert.\n\nQuestion: " ++ question ++
  "\n\nContext:\n" ++ base_context ++ "\n\n" ++ no_invention_warning ++
  "\n\nShare what you know about this type of product\x27s environmental performance, sustainability characteristics, and common life cycle considerations based on the information in the context.\n\nAnswer:"

/-- The `indicator_explanation` template. -/
def indicatorExplanationTemplate (question indicator_context base_context : String) : String :=
  "You are an environmental impact assessment specialist.\n\nQuestion: " ++ question ++
  "\n\n" ++ indicator_context ++ "\nContext:\n" ++ base_context ++ "\n\n" ++
  no_invention_warning ++
  "\n\nExplain what this indicator measures, its units, what environmental impacts it relates to, and why it\x27s relevant for building products. Use clear language while maintaining technical accuracy.\n\nAnswer:"

/-- The `recommendation_query` template. -/
def recommendationTemplate (question base_context : String) : String :=
  "You are a sustainable building materials consultant.\n\nQuestion: " ++ question ++
  "\n\nContext:\n" ++ base_context ++ "\n\n" ++ no_invention_warning ++
  "\n\nRecommend products or materials that perform well on relevant sustainability criteria based on the information provided. Explain the basis for your recommendations and mention any limitations in the available data.\n\nAnswer:"

/-- The `product_followup` template. -/
def productFollowupTemplate (question product_context indicator_context base_context
    product_warnings : String) : String :=
  "You are a product sustainability analyst specializing in building materials.\n\nQuestion: " ++
  question ++ "\n\n" ++ product_context ++ "\n" ++ indicator_context ++ "\nContext:\n" ++
  base_context ++ "\n\n" ++ no_invention_warning ++ "\n\n" ++ product_warnings ++
  "\n\nNote: Only statistically significant indicators (those that are notably higher or lower than category averages) are shown for each product.\n\nWhen discussing the products:\n1. ONLY mention numerical values that are EXPLICITLY shown in the product data above\n2. ALWAYS specify which module a value belongs to when citing any indicator value\n3. NEVER refer to a single module\x27s value as representing the entire indicator\n4. If asked about a specific aspect not covered in the data, state clearly that this information isn\x27t provided\n\nAnswer:"

/-- The generic fallback template (`default_template`). -/
def defaultTemplate (question product_context indicator_context base_context : String) : String :=
  "You are a sustainability assistant specializing in building materials.\n\nQuestion: " ++
  question ++ "\n\n" ++ product_context ++ "\n" ++ indicator_context ++ "\nContext:\n" ++
  base_context ++ "\n\n" ++ no_invention_warning ++ "\n\nAnswer:"

/-- `build_specialized_prompt`: a pure function of its inputs.  The Python
`prompt_templates.get(category, default_template)` is the if-chain over the
7 known keys, every other category string falling through to the default
template. -/
def build_specialized_prompt (fmt : ℚ → String) (category question chunks_context : String)
    (product_info : List ProductInfo) (indicator_info : List IndicatorInfo)
    (product_indicators : List (String × List (String × PIndData))) : String :=
  let base_context := if chunks_context.isEmpty then "No relevant context found." else chunks_context
  let product_context := buildProductContext fmt product_info indicator_info product_indicators
  let indicator_context := buildIndicatorContext indicator_info
  let product_warnings :=
    if category ∈ product_related_categories
    then module_integrity_warning ++ "\n" ++ module_explanation else ""
  if category = "theory_only" then theoryOnlyTemplate question base_context
  else if category = "comparison_question" then
    comparisonTemplate question product_context indicator_context base_context product_warnings
  else if category = "hybrid_theory_comparison" then
    hybridTemplate question product_context indicator_context base_context product_warnings
  else if category = "new_product_query" then newProductTemplate question base_context
  else if category = "indicator_explanation" then
    indicatorExplanationTemplate question indicator_context base_context
  else if category = "recommendation_query" then recommendationTemplate question base_context
  else if category = "product_followup" then
    productFollowupTemplate question product_context indicator_context base_context product_warnings
  else defaultTemplate question product_context indicator_context base_context

/-- Substring containment on strings, used to state that a composed prompt
carries a clause verbatim. -/
def containsSub (s w : String) : Prop := ∃ a b : String, s = a ++ w ++ b

/-! ### Claim-side predicates and concrete instances -/

/-- Structural lexicographic comparison of character lists. -/
def lexLtChars : List Char → List Char → Bool
  | [], [] => false
  | [], _ :: _ => true
  | _ :: _, [] => false
  | c :: cs, d :: ds => if c < d then true else if d < c then false else lexLtChars cs ds

/-- Lexicographic strict order on strings. -/
def strLt (a b : String) : Bool := lexLtChars a.data b.data

/-- Lexicographic candidate order claimed by the spec for tie-breaking:
indicator key first, then module code. -/
def lexLE (a b : Cand) : Prop :=
  strLt a.indicator_key b.indicator_key = true ∨
    (a.indicator_key = b.indicator_key ∧ strLt b.module a.module = false)

/-- The spec's tie-break property for a ranked candidate list: any two
candidates with equal z-scores appear in lexicographic (key, module)
order. -/
def tieLexOrdered (l : List Cand) : Prop :=
  l.Pairwise (fun a b => a.z_score ≠ b.z_score ∨ lexLE a b)

/-- Modelled from the spec's amended candidate rule, to be compared with
the code-side `evalCand`: a candidate is admitted whenever the statistic
exists with non-NULL mean and non-NULL non-zero std-dev (zero amounts are
admitted); z = |value − mean| / std-dev when std-dev > 0 and 0 otherwise;
percentile = (value − min) / (max − min) when min and max are non-NULL with
positive range, 0.5 when min and max are non-NULL with non-positive range,
(value − min) / 1 when only max is NULL, and evaluation raises when min is
NULL. -/
def specEvalCand (st : StatRow) (indicator_key module_code unit : String) (value : ℚ) :
    Except Unit (Option Cand) :=
  match st.mean, st.std_dev, st.min, st.max with
  | some mean, some std_dev, some mn, some mx =>
    if std_dev = 0 then .ok none
    else
      .ok (some { indicator_key := indicator_key, module := module_code, value := value,
                  unit := unit,
                  z_score := if std_dev > 0 then |(value - mean) / std_dev| else 0,
                  percentile := if mx - mn > 0 then (value - mn) / (mx - mn) else 0.5,
                  is_high := value > mean, is_low := value < mean })
  | some mean, some std_dev, some mn, none =>
    if std_dev = 0 then .ok none
    else
      .ok (some { indicator_key := indicator_key, module := module_code, value := value,
                  unit := unit,
                  z_score := if std_dev > 0 then |(value - mean) / std_dev| else 0,
                  percentile := (value - mn) / 1,
                  is_high := value > mean, is_low := value < mean })
  | some _, some std_dev, none, _ =>
    if std_dev = 0 then .ok none else .error ()
  | _, _, _, _ => .ok none

/-- A store whose every query raises a connection error. -/
def failingStore : Store :=
  { theoryRanked := ["t1", "t2"], epdAllRanked := ["e1"], epdForIds := fun _ => ["e2"],
    productMatches := fun _ => ["p"], theoryFails := true, epdFails := true,
    productFails := true }

/-- A healthy store whose pools are all empty. -/
def emptyStore : Store :=
  { theoryRanked := [], epdAllRanked := [], epdForIds := fun _ => [],
    productMatches := fun _ => [], theoryFails := false, epdFails := false,
    productFails := false }

/-- A healthy store with small concrete pools. -/
def sampleStore : Store :=
  { theoryRanked := ["t1", "t2", "t3", "t4"], epdAllRanked := ["e1", "e2"],
    epdForIds := fun _ => ["pe1", "pe2", "pe3"],
    productMatches := fun t => if t = "brick" then ["pid1"] else [],
    theoryFails := false, epdFails := false, productFails := false }

/-- Statistics lookup with an empty `indicator_statistics` table. -/
def noStats : StatLookup := fun _ _ _ _ _ => none

/-- Metadata lookup with an empty `indicators` table. -/
def noMeta : MetaLookup := fun _ => none

/-- Category rows for the single product "p1". -/
def p1Cats : List (String × String × String × String) := [("p1", "c1", "c2", "c3")]

/-- One product with one GWP module amount (used to exhibit a
caller-selected indicator that the engine drops). -/
def droppedRows : List LciaRow :=
  [{ process_id := "p1", indicator_key := "GWP", unit := "kg", module := some "A1-A3",
     amount := some 5 }]

/-- Two equal-z-score candidates in anti-lexicographic order. -/
def tieRows : List LciaRow :=
  [{ process_id := "p1", indicator_key := "ZZZ", unit := "kg", module := some "B1",
     amount := some 15 },
   { process_id := "p1", indicator_key := "AAA", unit := "kg", module := some "A1",
     amount := some 15 }]

/-- Statistics giving every triple mean 10, std-dev 5, min 0, max 1. -/
def tieStats : StatLookup :=
  fun _ _ _ _ _ => some { mean := some 10, std_dev := some 5, min := some 0, max := some 1 }

/-- The candidate the engine computes for tieRows' "ZZZ" row. -/
def candZZ : Cand :=
  { indicator_key := "ZZZ", module := "B1", value := 15, unit := "kg", z_score := 1,
    percentile := 15, is_high := true, is_low := false }

/-- The candidate the engine computes for tieRows' "AAA" row. -/
def candAA : Cand :=
  { indicator_key := "AAA", module := "A1", value := 15, unit := "kg", z_score := 1,
    percentile := 15, is_high := true, is_low := false }

/-- Engine output entry for the "ZZZ" candidate. -/
def entryZZ : OutEntry :=
  { unit := "kg", modules := [("B1", 15)],
    significance := [("B1", { z_score := 1, percentile := 15, is_high := true, is_low := false })],
    name := none, description := none }

/-- Engine output entry for the "AAA" candidate. -/
def entryAA : OutEntry :=
  { unit := "kg", modules := [("A1", 15)],
    significance := [("A1", { z_score := 1, percentile := 15, is_high := true, is_low := false })],
    name := none, description := none }

/-- One zero amount (GWP/A1) and one amount whose statistic has a NULL
max (AP/B1). -/
def zeroRows : List LciaRow :=
  [{ process_id := "p1", indicator_key := "GWP", unit := "kg", module := some "A1",
     amount := some 0 },
   { process_id := "p1", indicator_key := "AP", unit := "kg", module := some "B1",
     amount := some 7 }]

/-- Statistics for `zeroRows`: GWP has a full statistic, AP one with NULL
max. -/
def zeroStats : StatLookup :=
  fun k _ _ _ _ =>
    if k = "GWP" then some { mean := some 10, std_dev := some 5, min := some 0, max := some 20 }
    else some { mean := some 10, std_dev := some 5, min := some 0, max := none }

/-- Engine output entry for the zero-amount GWP candidate. -/
def entryGwpZero : OutEntry :=
  { unit := "kg", modules := [("A1", 0)],
    significance := [("A1", { z_score := 2, percentile := 0, is_high := false, is_low := true })],
    name := none, description := none }

/-- Engine output entry for the NULL-max AP candidate: its percentile is 7,
not 0.5. -/
def entryApNullMax : OutEntry :=
  { unit := "kg", modules := [("B1", 7)],
    significance := [("B1", { z_score := 3/5, percentile := 7, is_high := false, is_low := true })],
    name := none, description := none }

/-- The Scenario C statistic: mean 10, std-dev 5 (min 0, max 20). -/
def scenarioCStats : StatLookup :=
  fun _ _ _ _ _ => some { mean := some 10, std_dev := some 5, min := some 0, max := some 20 }

/-- The candidate the code computes in Scenario C (value 25.4 = 127/5):
z = 3.08 = 77/25, not the spec's 2.88. -/
def scenarioCCand : Cand :=
  { indicator_key := "GWP-fossil", module := "A1-A3", value := 127/5, unit := "kg CO2 eq.",
    z_score := 77/25, percentile := 127/100, is_high := true, is_low := false }

/-- Compositor-side data for Scenario C's rendered line. -/
def scenarioCData : PIndData :=
  { unit := some "kg CO2 eq.", modules := [("A1-A3", some (127/5))],
    significance := some [("A1-A3", { z_score := 77/25, percentile := 127/100,
                                      is_high := true, is_low := false })] }

/-! ## Theorems -/

/-! ### General helper lemmas -/

theorem containsSub_refl (w : String) : containsSub w w :=
  ⟨"", "", by simp⟩

theorem containsSub_append_left {t w : String} (s : String) (h : containsSub s w) :
    containsSub (s ++ t) w := by
  obtain ⟨a, b, rfl⟩ := h
  exact ⟨a, b ++ t, by simp [String.append_assoc]⟩

theorem containsSub_append_right {t w : String} (s : String) (h : containsSub t w) :
    containsSub (s ++ t) w := by
  obtain ⟨a, b, rfl⟩ := h
  exact ⟨s ++ a, b, by simp [String.append_assoc]⟩

/-! ### C6: classifier totality -/

/-- C6: for every outcome of the generation capability — a failure, an
empty response, or any response text — `classify_question` returns one of
the 8 defined labels (the 7 categories plus "unknown") and can never
produce any other string or raise; a capability failure, the empty
response, and any stripped-and-lowercased label not matching a known
category all yield "unknown". -/
theorem classify_question_total (raw_response : Except Unit String) (r : String) :
    classify_question raw_response ∈ allCategoryLabels ∧
    classify_question (Except.error ()) = "unknown" ∧
    classify_question (Except.ok "") = "unknown" ∧
    (pyLower (pyStrip r) ∉ valid_labels → classify_question (Except.ok r) = "unknown") := by
  refine ⟨?_, rfl, by decide, fun hr => ?_⟩
  · cases raw_response with
    | error e => simp [classify_question, allCategoryLabels, valid_labels]
    | ok s =>
      simp only [classify_question]
      by_cases h : pyLower (pyStrip s) ∈ valid_labels
      · rw [if_pos h]
        exact List.mem_append_left _ h
      · rw [if_neg h]
        simp [allCategoryLabels, valid_labels]
  · simp only [classify_question]
    rw [if_neg hr]

theorem classify_question_total_witness :
    (classify_question (Except.ok " THEORY_ONLY ") ∈ allCategoryLabels ∧
     classify_question (Except.error ()) = "unknown" ∧
     classify_question (Except.ok "") = "unknown" ∧
     (pyLower (pyStrip "banana") ∉ valid_labels →
       classify_question (Except.ok "banana") = "unknown")) ∧
    pyLower (pyStrip "banana") ∉ valid_labels ∧
    classify_question (Except.ok "banana") = "unknown" ∧
    classify_question (Except.ok " THEORY_ONLY ") = "theory_only" :=
  ⟨classify_question_total (Except.ok " THEORY_ONLY ") "banana", by decide,
   (classify_question_total (Except.ok "x") "banana").2.2.2 (by decide), by decide⟩

/-! ### C3: store failures are absorbed, not propagated -/

/-- C3 counterexample: with a store whose queries all raise, the raw
queries do fail, but `get_theory_chunks` / `get_epd_chunks` swallow the
failure and return empty chunk lists, and the pipeline flows into the
empty-result fallback path, ending in the normal no-information answer —
no error propagates out of the retrieval router. -/
theorem store_failure_absorbed :
    theoryQueryExc failingStore 5 = Except.error () ∧
    get_theory_chunks failingStore 5 = [] ∧
    epdQueryExc failingStore (some ["p1"]) 5 = Except.error () ∧
    get_epd_chunks failingStore (some ["p1"]) 5 = [] ∧
    retrievalPhase failingStore "theory_only" [] "What is an EPD?" =
      RetrievalOutcome.answer noInfoMsg := by
  refine ⟨rfl, rfl, rfl, rfl, ?_⟩
  rfl

/-- C3 (amended): a store-access failure in a theory-pool or
product-evidence similarity query is caught at the call site and absorbed
as an empty chunk list, merging into the empty-result / fallback path; it
does not propagate to the caller. -/
theorem store_failure_yields_empty (s : Store) (limit : Nat) (ids : Option (List String))
    (ht : s.theoryFails = true) (he : s.epdFails = true) :
    get_theory_chunks s limit = [] ∧ get_epd_chunks s ids limit = [] := by
  constructor
  · simp [get_theory_chunks, theoryQueryExc, ht]
  · simp [get_epd_chunks, epdQueryExc, he]

theorem store_failure_yields_empty_witness :
    failingStore.theoryFails = true ∧ failingStore.epdFails = true ∧
    (get_theory_chunks failingStore 7 = [] ∧ get_epd_chunks failingStore (some ["x"]) 7 = []) :=
  ⟨rfl, rfl, store_failure_yields_empty failingStore 7 (some ["x"]) rfl rfl⟩

/-! ### C7: one-shot relaxed fallback, then a normal no-information answer -/

/-- C7: whenever the category-specific retrieval plan yields zero chunks,
the router performs the relaxed category-agnostic fallback exactly once —
theory top 2 plus unfiltered product-evidence top 3 — and if that fallback
also yields zero chunks the pipeline returns the normal no-information
answer, not an error. -/
theorem empty_plan_single_fallback (s : Store) (category : String)
    (document_ids : List String) (question : String)
    (h : categoryPlanChunks s category document_ids question = []) :
    retrieveWithFallback s category document_ids question = (fallbackChunks s, 1) ∧
    fallbackChunks s = get_theory_chunks s 2 ++ get_epd_chunks s none 3 ∧
    (fallbackChunks s = [] →
      retrievalPhase s category document_ids question = RetrievalOutcome.answer noInfoMsg) := by
  refine ⟨?_, rfl, ?_⟩
  · simp [retrieveWithFallback, h]
  · intro hf
    simp [retrievalPhase, retrieveWithFallback, h, hf]

theorem empty_plan_single_fallback_witness :
    categoryPlanChunks emptyStore "theory_only" [] "q" = [] ∧
    (retrieveWithFallback emptyStore "theory_only" [] "q" = (fallbackChunks emptyStore, 1) ∧
     fallbackChunks emptyStore = get_theory_chunks emptyStore 2 ++ get_epd_chunks emptyStore none 3 ∧
     (fallbackChunks emptyStore = [] →
       retrievalPhase emptyStore "theory_only" [] "q" = RetrievalOutcome.answer noInfoMsg)) :=
  ⟨rfl, empty_plan_single_fallback emptyStore "theory_only" [] "q" rfl⟩

/-! ### C8: the new_product_query retrieval plan -/

theorem get_epd_chunks_len_le (s : Store) (ids : Option (List String)) (limit : Nat) :
    (get_epd_chunks s ids limit).length ≤ limit := by
  by_cases he : s.epdFails = true
  · simp [get_epd_chunks, epdQueryExc, he]
  · by_cases hi : (ids.getD []).isEmpty = true
    · simp [get_epd_chunks, epdQueryExc, he, hi, List.length_take_le]
    · simp [get_epd_chunks, epdQueryExc, he, hi, List.length_take_le]

theorem search_epd_by_term_le (s : Store) (t : String) :
    (search_epd_by_term s t 2).length ≤ 2 := by
  by_cases hp : s.productFails = true
  · simp [search_epd_by_term, hp]
  · by_cases hq : ((s.productMatches t).take 2).isEmpty = true
    · simp [search_epd_by_term, hp, hq]
    · simpa [search_epd_by_term, hp, hq] using
        get_epd_chunks_len_le s (some ((s.productMatches t).take 2)) 2

/-- C8: for a request classified as new_product_query, the retrieval plan
is exactly the theory pool's top 3 chunks followed, for at most 2 extracted
domain terms, by the keyword-matched product-evidence chunks of each term,
at most 2 chunks per term. -/
theorem new_product_query_plan (s : Store) (document_ids : List String) (question : String)
    (ht : s.theoryFails = false) :
    categoryPlanChunks s "new_product_query" document_ids question =
      s.theoryRanked.take 3 ++
        ((extractSearchTerms question).take 2).flatMap (fun t => search_epd_by_term s t 2) ∧
    ((extractSearchTerms question).take 2).length ≤ 2 ∧
    (∀ t, (search_epd_by_term s t 2).length ≤ 2) := by
  refine ⟨?_, ?_, fun t => search_epd_by_term_le s t⟩
  · simp [categoryPlanChunks, get_theory_chunks, theoryQueryExc, ht]
  · simp

theorem new_product_query_plan_witness :
    sampleStore.theoryFails = false ∧
    (categoryPlanChunks sampleStore "new_product_query" [] "Is brick good" =
      sampleStore.theoryRanked.take 3 ++
        ((extractSearchTerms "Is brick good").take 2).flatMap
          (fun t => search_epd_by_term sampleStore t 2) ∧
     ((extractSearchTerms "Is brick good").take 2).length ≤ 2 ∧
     (∀ t, (search_epd_by_term sampleStore t 2).length ≤ 2)) :=
  ⟨rfl, new_product_query_plan sampleStore [] "Is brick good" rfl⟩

/-! ### C10: all non-key categories share the default template -/

/-- C10: every category string that is not one of the 7 template keys —
including "unknown" — produces one and the same default template output
for identical remaining inputs; the compositor is total over category
strings and has no template dedicated to "unknown". -/
theorem non_key_category_default_template (fmt : ℚ → String)
    (category question chunks_context : String)
    (product_info : List ProductInfo) (indicator_info : List IndicatorInfo)
    (product_indicators : List (String × List (String × PIndData)))
    (h : category ∉ valid_labels) :
    build_specialized_prompt fmt category question chunks_context product_info indicator_info
      product_indicators =
      defaultTemplate question
        (buildProductContext fmt product_info indicator_info product_indicators)
        (buildIndicatorContext indicator_info)
        (if chunks_context.isEmpty then "No relevant context found." else chunks_context) ∧
    build_specialized_prompt fmt "unknown" question chunks_context product_info indicator_info
      product_indicators =
      defaultTemplate question
        (buildProductContext fmt product_info indicator_info product_indicators)
        (buildIndicatorContext indicator_info)
        (if chunks_context.isEmpty then "No relevant context found." else chunks_context) := by
  simp only [valid_labels, List.mem_cons, List.not_mem_nil, or_false, not_or] at h
  obtain ⟨h1, h2, h3, h4, h5, h6, h7⟩ := h
  constructor
  · simp [build_specialized_prompt, h1, h2, h3, h4, h5, h6, h7]
  · simp [build_specialized_prompt]

/-! ### C2: module-integrity clause and glossary in product-centric prompts -/

theorem pw_contains_integrity :
    containsSub (module_integrity_warning ++ "\n" ++ module_explanation)
      module_integrity_warning :=
  containsSub_append_left _ (containsSub_append_left _ (containsSub_refl _))

theorem pw_contains_glossary :
    containsSub (module_integrity_warning ++ "\n" ++ module_explanation) module_explanation :=
  containsSub_append_right _ (containsSub_refl _)

theorem comparisonTemplate_contains {w : String} (q pc ic bc pw : String)
    (h : containsSub pw w) : containsSub (comparisonTemplate q pc ic bc pw) w := by
  unfold comparisonTemplate
  exact containsSub_append_left _ (containsSub_append_right _ h)

theorem hybridTemplate_contains {w : String} (q pc ic bc pw : String)
    (h : containsSub pw w) : containsSub (hybridTemplate q pc ic bc pw) w := by
  unfold hybridTemplate
  exact containsSub_append_left _ (containsSub_append_right _ h)

theorem productFollowupTemplate_contains {w : String} (q pc ic bc pw : String)
    (h : containsSub pw w) : containsSub (productFollowupTemplate q pc ic bc pw) w := by
  unfold productFollowupTemplate
  exact containsSub_append_left _ (containsSub_append_right _ h)

theorem build_comparison_eq (fmt : ℚ → String) (q cc : String) (pi : List ProductInfo)
    (ii : List IndicatorInfo) (pinds : List (String × List (String × PIndData))) :
    build_specialized_prompt fmt "comparison_question" q cc pi ii pinds =
      comparisonTemplate q (buildProductContext fmt pi ii pinds) (buildIndicatorContext ii)
        (if cc.isEmpty then "No relevant context found." else cc)
        (module_integrity_warning ++ "\n" ++ module_explanation) := by
  simp [build_specialized_prompt, product_related_categories]

theorem build_hybrid_eq (fmt : ℚ → String) (q cc : String) (pi : List ProductInfo)
    (ii : List IndicatorInfo) (pinds : List (String × List (String × PIndData))) :
    build_specialized_prompt fmt "hybrid_theory_comparison" q cc pi ii pinds =
      hybridTemplate q (buildProductContext fmt pi ii pinds) (buildIndicatorContext ii)
        (if cc.isEmpty then "No relevant context found." else cc)
        (module_integrity_warning ++ "\n" ++ module_explanation) := by
  simp [build_specialized_prompt, product_related_categories]

theorem build_followup_eq (fmt : ℚ → String) (q cc : String) (pi : List ProductInfo)
    (ii : List IndicatorInfo) (pinds : List (String × List (String × PIndData))) :
    build_specialized_prompt fmt "product_followup" q cc pi ii pinds =
      productFollowupTemplate q (buildProductContext fmt pi ii pinds) (buildIndicatorContext ii)
        (if cc.isEmpty then "No relevant context found." else cc)
        (module_integrity_warning ++ "\n" ++ module_explanation) := by
  simp [build_specialized_prompt, product_related_categories]

theorem renderModuleValues_module_code (fmt : ℚ → String) (data : PIndData) (line : String)
    (h : line ∈ renderModuleValues fmt data) :
    ∃ m v rest, (m, some v) ∈ data.modules ∧ line = m ++ ": " ++ rest := by
  unfold renderModuleValues at h
  obtain ⟨⟨m, ov⟩, hmem, he⟩ := List.mem_filterMap.mp h
  cases ov with
  | none => simp at he
  | some v =>
    simp only [Option.map_some'] at he
    exact ⟨m, v, fmt v ++ markerOf ((data.significance.getD []).lookup m), hmem,
           (Option.some.inj he).symm⟩

/-- C2: for each of the three product-centric categories the composed
prompt contains the module-integrity clause and the fixed life-cycle-module
glossary verbatim, and every module value string rendered into an indicator
line is prefixed by the module code of the value it cites. -/
theorem product_centric_prompt_integrity (fmt : ℚ → String)
    (category question chunks_context : String) (product_info : List ProductInfo)
    (indicator_info : List IndicatorInfo)
    (product_indicators : List (String × List (String × PIndData)))
    (h : category ∈ product_related_categories) :
    containsSub (build_specialized_prompt fmt category question chunks_context product_info
      indicator_info product_indicators) module_integrity_warning ∧
    containsSub (build_specialized_prompt fmt category question chunks_context product_info
      indicator_info product_indicators) module_explanation ∧
    (∀ (data : PIndData) (line : String), line ∈ renderModuleValues fmt data →
      ∃ m v rest, (m, some v) ∈ data.modules ∧ line = m ++ ": " ++ rest) := by
  simp only [product_related_categories, List.mem_cons, List.not_mem_nil, or_false] at h
  rcases h with h | h | h <;> subst h
  · rw [build_comparison_eq]
    exact ⟨comparisonTemplate_contains _ _ _ _ _ pw_contains_integrity,
           comparisonTemplate_contains _ _ _ _ _ pw_contains_glossary,
           fun d l hl => renderModuleValues_module_code fmt d l hl⟩
  · rw [build_hybrid_eq]
    exact ⟨hybridTemplate_contains _ _ _ _ _ pw_contains_integrity,
           hybridTemplate_contains _ _ _ _ _ pw_contains_glossary,
           fun d l hl => renderModuleValues_module_code fmt d l hl⟩
  · rw [build_followup_eq]
    exact ⟨productFollowupTemplate_contains _ _ _ _ _ pw_contains_integrity,
           productFollowupTemplate_contains _ _ _ _ _ pw_contains_glossary,
           fun d l hl => renderModuleValues_module_code fmt d l hl⟩

theorem product_centric_prompt_integrity_witness :
    "product_followup" ∈ product_related_categories ∧
    (containsSub (build_specialized_prompt (fun _ => "v") "product_followup" "q" "ctx" [] [] [])
      module_integrity_warning ∧
     containsSub (build_specialized_prompt (fun _ => "v") "product_followup" "q" "ctx" [] [] [])
      module_explanation ∧
     (∀ (data : PIndData) (line : String), line ∈ renderModuleValues (fun _ => "v") data →
       ∃ m v rest, (m, some v) ∈ data.modules ∧ line = m ++ ": " ++ rest)) :=
  ⟨by decide,
   product_centric_prompt_integrity (fun _ => "v") "product_followup" "q" "ctx" [] [] []
     (by decide)⟩

/-! ### C9: high/low markers and Scenario C -/

theorem markerOf_ne_empty_iff (sig : SigOut) :
    markerOf (some sig) ≠ "" ↔
      ((sig.is_high = true ∨ sig.is_low = true) ∧ sig.z_score > 1.5) := by
  constructor
  · intro hne
    by_cases h1 : sig.is_high = true ∧ sig.z_score > 1.5
    · exact ⟨Or.inl h1.1, h1.2⟩
    · by_cases h2 : sig.is_low = true ∧ sig.z_score > 1.5
      · exact ⟨Or.inr h2.1, h2.2⟩
      · exact absurd (by simp only [markerOf]; rw [if_neg h1, if_neg h2]) hne
  · rintro ⟨hd, hz⟩
    simp only [markerOf]
    by_cases h1 : sig.is_high = true ∧ sig.z_score > 1.5
    · rw [if_pos h1]
      decide
    · have h2 : sig.is_low = true ∧ sig.z_score > 1.5 := by
        rcases hd with h | h
        · exact absurd ⟨h, hz⟩ h1
        · exact ⟨h, hz⟩
      rw [if_neg h1, if_pos h2]
      decide

/-- C9 counterexample: for Scenario C's inputs (module amount 25.4 against
mean 10 and std-dev 5) the code computes z = |25.4 − 10| / 5 = 3.08, not
the 2.88 the claim states. -/
theorem scenario_c_z_is_not_288 :
    evalCand scenarioCStats "c1" "c2" "c3" "GWP-fossil" "A1-A3" "kg CO2 eq." (127/5) =
      Except.ok (some scenarioCCand) ∧
    scenarioCCand.z_score = 77/25 ∧ ((77 : ℚ)/25 ≠ 288/100) := by
  refine ⟨?_, rfl, by norm_num⟩
  norm_num [evalCand, scenarioCStats, scenarioCCand]

/-- C9 (amended): a rendered module value carries a "(high)"/"(low)" marker
iff the matching direction flag is set and the z-score exceeds 1.5; for
Scenario C (module amount 25.4, mean 10, std-dev 5) the computed z-score is
3.08, the direction is high, and since 3.08 > 1.5 the rendered value string
carries the " (high)" suffix. -/
theorem marker_iff_and_scenario_c (fmt : ℚ → String) (sig : SigOut) :
    (markerOf (some sig) ≠ "" ↔
      ((sig.is_high = true ∨ sig.is_low = true) ∧ sig.z_score > 1.5)) ∧
    evalCand scenarioCStats "c1" "c2" "c3" "GWP-fossil" "A1-A3" "kg CO2 eq." (127/5) =
      Except.ok (some scenarioCCand) ∧
    scenarioCCand.z_score = 77/25 ∧ ((77 : ℚ)/25 > 1.5) ∧ scenarioCCand.is_high = true ∧
    renderModuleValues fmt scenarioCData = ["A1-A3: " ++ (fmt (127/5) ++ " (high)")] := by
  refine ⟨markerOf_ne_empty_iff sig, ?_, rfl, by norm_num, rfl, ?_⟩
  · norm_num [evalCand, scenarioCStats, scenarioCCand]
  · norm_num [renderModuleValues, scenarioCData, markerOf, List.lookup,
      List.filterMap_cons, List.filterMap_nil]
    rw [show ("A1-A3" ++ ": " : String) = "A1-A3: " from by decide]

theorem non_key_category_default_template_witness :
    "weird" ∉ valid_labels ∧
    (build_specialized_prompt (fun _ => "v") "weird" "q" "" [] [] [] =
      defaultTemplate "q" (buildProductContext (fun _ => "v") [] [] [])
        (buildIndicatorContext [])
        (if ("" : String).isEmpty then "No relevant context found." else "") ∧
     build_specialized_prompt (fun _ => "v") "unknown" "q" "" [] [] [] =
      defaultTemplate "q" (buildProductContext (fun _ => "v") [] [] [])
        (buildIndicatorContext [])
        (if ("" : String).isEmpty then "No relevant context found." else "")) :=
  ⟨by decide, non_key_category_default_template (fun _ => "v") "weird" "q" "" [] [] [] (by decide)⟩

/-! ### C4: the candidate sort is stable on z-score, with no lexicographic tie-break -/

theorem mem_insertByZDesc {x c : Cand} {l : List Cand} :
    c ∈ insertByZDesc x l ↔ c = x ∨ c ∈ l := by
  induction l with
  | nil => simp [insertByZDesc]
  | cons y ys ih =>
    by_cases h : x.z_score ≤ y.z_score
    · simp only [insertByZDesc, if_pos h, List.mem_cons, ih]
      tauto
    · simp [insertByZDesc, h]

theorem insertByZDesc_perm (x : Cand) (l : List Cand) :
    List.Perm (insertByZDesc x l) (x :: l) := by
  induction l with
  | nil => simp [insertByZDesc]
  | cons y ys ih =>
    by_cases h : x.z_score ≤ y.z_score
    · simp only [insertByZDesc, if_pos h]
      exact (List.Perm.cons y ih).trans (List.Perm.swap x y ys)
    · simp [insertByZDesc, h]

theorem pairwise_insertByZDesc (x : Cand) (l : List Cand)
    (h : l.Pairwise (fun a b => b.z_score ≤ a.z_score)) :
    (insertByZDesc x l).Pairwise (fun a b => b.z_score ≤ a.z_score) := by
  induction l with
  | nil => simp [insertByZDesc]
  | cons y ys ih =>
    rw [List.pairwise_cons] at h
    by_cases hx : x.z_score ≤ y.z_score
    · simp only [insertByZDesc, if_pos hx]
      rw [List.pairwise_cons]
      refine ⟨?_, ih h.2⟩
      intro b hb
      rcases mem_insertByZDesc.mp hb with rfl | hb
      · exact hx
      · exact h.1 b hb
    · simp only [insertByZDesc, if_neg hx]
      push_neg at hx
      rw [List.pairwise_cons]
      refine ⟨?_, List.pairwise_cons.mpr h⟩
      intro b hb
      rcases List.mem_cons.mp hb with rfl | hb
      · exact le_of_lt hx
      · exact le_trans (h.1 b hb) (le_of_lt hx)

theorem filter_insertByZDesc (x : Cand) (l : List Cand) (q : ℚ)
    (h : l.Pairwise (fun a b => b.z_score ≤ a.z_score)) :
    (insertByZDesc x l).filter (fun c => decide (c.z_score = q)) =
      l.filter (fun c => decide (c.z_score = q)) ++
        (if x.z_score = q then [x] else []) := by
  induction l with
  | nil => by_cases hx : x.z_score = q <;> simp [insertByZDesc, hx]
  | cons y ys ih =>
    rw [List.pairwise_cons] at h
    by_cases hle : x.z_score ≤ y.z_score
    · simp only [insertByZDesc, if_pos hle, List.filter_cons]
      rw [ih h.2]
      by_cases hy : y.z_score = q <;> simp [hy]
    · push_neg at hle
      simp only [insertByZDesc, if_neg (not_le.mpr hle), List.filter_cons]
      by_cases hx : x.z_score = q
      · have hfil : (y :: ys).filter (fun c => decide (c.z_score = q)) = [] := by
          rw [List.filter_eq_nil_iff]
          intro c hc
          simp only [decide_eq_true_eq]
          intro hq
          have hcy : c.z_score ≤ y.z_score := by
            rcases List.mem_cons.mp hc with rfl | hc
            · exact le_refl _
            · exact h.1 c hc
          rw [hq, ← hx] at hcy
          exact absurd hcy (not_le.mpr hle)
        rw [List.filter_cons] at hfil
        rw [hfil]
        simp [hx]
      · simp [hx, List.filter_cons]

theorem sortByZDesc_aux_pairwise :
    ∀ (l acc : List Cand), acc.Pairwise (fun a b => b.z_score ≤ a.z_score) →
      (l.foldl (fun acc x => insertByZDesc x acc) acc).Pairwise
        (fun a b => b.z_score ≤ a.z_score)
  | [], _, h => h
  | x :: xs, acc, h =>
    sortByZDesc_aux_pairwise xs (insertByZDesc x acc) (pairwise_insertByZDesc x acc h)

theorem sortByZDesc_aux_perm :
    ∀ (l acc : List Cand),
      List.Perm (l.foldl (fun acc x => insertByZDesc x acc) acc) (acc ++ l)
  | [], acc => by simp
  | x :: xs, acc => by
    have h1 := sortByZDesc_aux_perm xs (insertByZDesc x acc)
    have h2 := (insertByZDesc_perm x acc).append_right xs
    have h3 : List.Perm ((x :: acc) ++ xs) (acc ++ x :: xs) := List.perm_middle.symm
    exact h1.trans (h2.trans h3)

theorem sortByZDesc_aux_filter (q : ℚ) :
    ∀ (l acc : List Cand), acc.Pairwise (fun a b => b.z_score ≤ a.z_score) →
      (l.foldl (fun acc x => insertByZDesc x acc) acc).filter
          (fun c => decide (c.z_score = q)) =
        acc.filter (fun c => decide (c.z_score = q)) ++
          l.filter (fun c => decide (c.z_score = q))
  | [], _, _ => by simp
  | x :: xs, acc, h => by
    rw [List.foldl_cons,
        sortByZDesc_aux_filter q xs (insertByZDesc x acc) (pairwise_insertByZDesc x acc h),
        filter_insertByZDesc x acc q h, List.filter_cons]
    by_cases hx : x.z_score = q <;> simp [hx]

/-- C4 counterexample: the sort is keyed only on the z-score and is stable,
so two equal-z candidates arriving in anti-lexicographic order stay in
arrival order: "ZZZ"/B1 stays before "AAA"/A1 both in the ranked candidate
list and in the engine output dict, violating the claimed (indicator key,
module) lexicographic tie-break. -/
theorem tie_break_not_lexicographic :
    sortByZDesc [candZZ, candAA] = [candZZ, candAA] ∧
    ¬ tieLexOrdered [candZZ, candAA] ∧
    get_statistically_important_indicators p1Cats tieRows tieStats noMeta 8 =
      [("p1", [("ZZZ", entryZZ), ("AAA", entryAA)])] := by
  refine ⟨by decide, ?_, ?_⟩
  · intro hord
    unfold tieLexOrdered at hord
    rw [List.pairwise_cons] at hord
    have h := hord.1 candAA (by simp)
    rcases h with h | h
    · exact h rfl
    · unfold lexLE at h
      rcases h with h | ⟨h, _⟩
      · exact absurd h (by decide)
      · exact absurd h (by decide)
  · norm_num [get_statistically_important_indicators, buildCategories, buildLcia, addLciaRow,
      dictModify, dictInsert, p1Cats, tieRows, tieStats, noMeta, computeProducts, candTriples,
      candsFor, evalCand, selectCandidates, sortByZDesc, insertByZDesc, outputForProduct,
      addSelected, attachMetadata, attachOne, candZZ, candAA, entryZZ, entryAA, List.lookup,
      show ("B1" : String).isEmpty = false from by decide,
      show ("A1" : String).isEmpty = false from by decide]
    decide

/-- C4 (amended): within one product's ranked candidate list the sort is
keyed only on the z-score: the output is sorted descending by z-score, is a
permutation of the candidates, and — the sort being stable — candidates
with equal z-scores keep their candidate-generation (input) order rather
than being reordered lexicographically; the result is a deterministic
function of the input, so selection and output order are reproducible for
every fixed input. -/
theorem sort_stable_keyed_on_z (l : List Cand) :
    (sortByZDesc l).Pairwise (fun a b => b.z_score ≤ a.z_score) ∧
    List.Perm (sortByZDesc l) l ∧
    (∀ q : ℚ, (sortByZDesc l).filter (fun c => decide (c.z_score = q)) =
      l.filter (fun c => decide (c.z_score = q))) := by
  refine ⟨sortByZDesc_aux_pairwise l [] (by simp), ?_, fun q => ?_⟩
  · simpa using sortByZDesc_aux_perm l []
  · simpa using sortByZDesc_aux_filter q l [] (by simp)

/-! ### C1: at most max-result-count entries per product; selected indicators get no special treatment -/

theorem length_dictInsert {β : Type} (k : String) (v : β) (d : List (String × β)) :
    (dictInsert k v d).length ≤ d.length + 1 := by
  induction d with
  | nil => simp [dictInsert]
  | cons kv rest ih =>
    obtain ⟨k', v'⟩ := kv
    by_cases h : k' = k
    · simp [dictInsert, h]
    · simp only [dictInsert, if_neg h, List.length_cons]
      omega

theorem entriesCount_addSelected (d : List (String × OutEntry)) (c : Cand) :
    entriesCount (addSelected d c) ≤ entriesCount d + 1 := by
  unfold addSelected
  induction d with
  | nil =>
    simp only [dictModify, entriesCount, List.map_cons, List.map_nil, List.sum_cons,
      List.sum_nil]
    have := length_dictInsert c.module c.value ([] : List (String × ℚ))
    simpa using this
  | cons kv rest ih =>
    obtain ⟨k', e⟩ := kv
    by_cases h : k' = c.indicator_key
    · simp only [dictModify, if_pos h, entriesCount, List.map_cons, List.sum_cons]
      have := length_dictInsert c.module c.value e.modules
      simp only [entriesCount] at *
      omega
    · simp only [dictModify, if_neg h, entriesCount, List.map_cons, List.sum_cons]
      simp only [entriesCount] at ih
      omega

theorem entriesCount_foldl_addSelected (selected : List Cand) :
    ∀ d : List (String × OutEntry),
      entriesCount (selected.foldl addSelected d) ≤ entriesCount d + selected.length := by
  induction selected with
  | nil => intro d; simp
  | cons c cs ih =>
    intro d
    rw [List.foldl_cons]
    have h1 := ih (addSelected d c)
    have h2 := entriesCount_addSelected d c
    simp only [List.length_cons]
    omega

theorem entriesCount_outputForProduct_le (selected : List Cand) :
    entriesCount (outputForProduct selected) ≤ selected.length := by
  have := entriesCount_foldl_addSelected selected []
  simpa [outputForProduct, entriesCount] using this

theorem length_selectCandidates (N : Nat) (cands : List Cand) :
    (selectCandidates N cands).length ≤ N := by
  simp only [selectCandidates]
  split <;> simp only [List.length_append, List.length_take] <;> omega

theorem computeProducts_mem (cats : List (String × (String × String × String)))
    (stats : StatLookup) (N : Nat) :
    ∀ (l : List (String × List (String × IndAmounts))) (out : EngineOut)
      (pid : String) (entry : List (String × OutEntry)),
      computeProducts cats stats N l = Except.ok out → (pid, entry) ∈ out →
      ∃ cands, entry = outputForProduct (selectCandidates N cands) := by
  intro l
  induction l with
  | nil =>
    intro out pid entry h hm
    simp only [computeProducts, Except.ok.injEq] at h
    subst h
    simp at hm
  | cons pi rest ih =>
    intro out pid entry h hm
    obtain ⟨pid', inds⟩ := pi
    simp only [computeProducts] at h
    cases hc : cats.lookup pid' with
    | none =>
      rw [hc] at h
      exact ih out pid entry h hm
    | some c =>
      rw [hc] at h
      dsimp only at h
      cases hf : candsFor stats c.1 c.2.1 c.2.2 (candTriples inds) with
      | error e => rw [hf] at h; cases h
      | ok cands =>
        rw [hf] at h
        cases hr : computeProducts cats stats N rest with
        | error e => rw [hr] at h; cases h
        | ok out' =>
          rw [hr] at h
          simp only [Except.ok.injEq] at h
          subst h
          rcases List.mem_cons.mp hm with heq | hm'
          · injection heq with h1 h2
            exact ⟨cands, h2⟩
          · exact ih out' pid entry hr hm'

theorem attachOne_modules (metaf : MetaLookup) (k : String) (e : OutEntry) :
    (attachOne metaf k e).modules = e.modules := by
  unfold attachOne
  cases metaf k <;> rfl

theorem entriesCount_attach (metaf : MetaLookup) (d : List (String × OutEntry)) :
    entriesCount (d.map (fun ke => (ke.1, attachOne metaf ke.1 ke.2))) = entriesCount d := by
  induction d with
  | nil => rfl
  | cons kv rest ih =>
    simp only [entriesCount, List.map_cons, List.sum_cons, attachOne_modules] at ih ⊢
    omega

/-- C1 (amended): for every input and max-result-count N the significance
engine returns at most N (indicator key, module) entries per product; but
the engine gives caller-selected indicators no special treatment — it does
not even receive them (the product_followup call site passes only the
product ids and N = 8) — so a caller-selected indicator with data is capped
and dropped like any other and is not guaranteed to be included. -/
theorem engine_entries_le_max (categoryRows : List (String × String × String × String))
    (lciaRows : List LciaRow) (stats : StatLookup) (metaf : MetaLookup) (N : Nat)
    (pid : String) (entry : List (String × OutEntry))
    (h : (pid, entry) ∈ get_statistically_important_indicators categoryRows lciaRows stats
          metaf N) :
    entriesCount entry ≤ N := by
  unfold get_statistically_important_indicators at h
  cases hc : computeProducts (buildCategories categoryRows) stats N (buildLcia lciaRows) with
  | error e => rw [hc] at h; simp at h
  | ok out =>
    rw [hc] at h
    unfold attachMetadata at h
    obtain ⟨⟨pid', entry'⟩, hm, heq⟩ := List.mem_map.mp h
    obtain ⟨cands, hout⟩ := computeProducts_mem (buildCategories categoryRows) stats N
      (buildLcia lciaRows) out pid' entry' hc hm
    have hentry : entry = entry'.map (fun ke => (ke.1, attachOne metaf ke.1 ke.2)) :=
      (congrArg Prod.snd heq).symm
    rw [hentry, entriesCount_attach, hout]
    exact le_trans (entriesCount_outputForProduct_le _) (length_selectCandidates N cands)

theorem engine_entries_le_max_witness :
    (("p1", ([] : List (String × OutEntry))) ∈
      get_statistically_important_indicators p1Cats droppedRows noStats noMeta 8) ∧
    entriesCount ([] : List (String × OutEntry)) ≤ 8 :=
  ⟨by decide, engine_entries_le_max p1Cats droppedRows noStats noMeta 8 "p1" [] (by decide)⟩

/-- C1 counterexample: the engine has no caller-selected-indicator input at
all; for a product whose caller-selected indicator "GWP" has a module
amount but no matching category statistic, the engine output for the
product is the empty dict — the selected indicator's data is not included,
contradicting "every caller-selected indicator that has data for the
product is always included in full". -/
theorem selected_indicator_dropped :
    get_statistically_important_indicators p1Cats droppedRows noStats noMeta 8 =
      [("p1", [])] ∧
    (buildLcia droppedRows).lookup "p1" =
      some [("GWP", { unit := "kg", modules := [("A1-A3", 5)] })] := by
  exact ⟨by decide, by decide⟩

/-! ### C5: candidate admission, z-score and percentile formulas -/

/-- C5 counterexample: the engine admits a zero amount (GWP/A1, value 0,
full statistic) as a candidate — the claim requires non-zero — and for a
statistic whose max is NULL (AP/B1, value 7, min 0) the computed percentile
is (7 − 0) / 1 = 7, not the claimed 0.5. -/
theorem zero_amount_admitted_percentile_not_half :
    get_statistically_important_indicators p1Cats zeroRows zeroStats noMeta 8 =
      [("p1", [("GWP", entryGwpZero), ("AP", entryApNullMax)])] ∧
    entryGwpZero.modules = [("A1", 0)] ∧ ((7 : ℚ) ≠ 1/2) := by
  refine ⟨?_, rfl, by norm_num⟩
  norm_num [get_statistically_important_indicators, buildCategories, buildLcia, addLciaRow,
    dictModify, dictInsert, p1Cats, zeroRows, zeroStats, noMeta, computeProducts, candTriples,
    candsFor, evalCand, selectCandidates, sortByZDesc, insertByZDesc, outputForProduct,
    addSelected, attachMetadata, attachOne, entryGwpZero, entryApNullMax, List.lookup,
    show ("A1" : String).isEmpty = false from by decide,
    show ("B1" : String).isEmpty = false from by decide,
    show ("AP" : String) ≠ "GWP" from by decide,
    show ("GWP" : String) ≠ "AP" from by decide,
    show |(3 : ℚ)/5| = 3/5 from abs_of_nonneg (by norm_num)]

/-- C5 (amended): the engine collects only non-NULL module amounts (zero
amounts included), and per candidate behaves exactly as the amended rule
states: it admits the triple whenever the looked-up statistic exists with
non-NULL mean and non-NULL, non-zero std-dev; z = |value − mean| / std-dev
when std-dev > 0 (0 otherwise); percentile = (value − min) / (max − min)
for a positive range, 0.5 for a non-positive range, (value − min) / 1 when
max is NULL, and a NULL min raises (emptying the whole engine result). -/
theorem evalCand_matches_spec (stats : StatLookup) (cat1 cat2 cat3 k m u : String) (v : ℚ) :
    evalCand stats cat1 cat2 cat3 k m u v =
      (match stats k m cat1 cat2 cat3 with
       | none => Except.ok none
       | some st => specEvalCand st k m u v) := by
  cases hs : stats k m cat1 cat2 cat3 with
  | none => simp [evalCand, hs]
  | some st =>
    obtain ⟨mean, std, mn, mx⟩ := st
    cases mean with
    | none => cases std <;> simp [evalCand, specEvalCand, hs]
    | some mean =>
      cases std with
      | none => simp [evalCand, specEvalCand, hs]
      | some std =>
        by_cases hz : std = 0
        · cases mn <;> cases mx <;> simp [evalCand, specEvalCand, hs, hz]
        · cases mn with
          | none =>
            cases mx <;> simp [evalCand, specEvalCand, hs, hz]
          | some mnv =>
            cases mx with
            | none =>
              simp only [evalCand, specEvalCand, hs, if_neg hz]
              norm_num
            | some mxv =>
              by_cases hr : mxv - mnv > 0
              · simp [evalCand, specEvalCand, hs, hz, hr]
              · simp [evalCand, specEvalCand, hs, hz, hr]

end Epd
